import Mathlib

/-!
Verification of the CharChiru generation-request orchestrator.

The definitions below are a shallow embedding of the source:
- src/services/geminiService.ts : generateVideo (payload building, polling,
  terminal-result extraction, asset download check);
- src/components/StartupAnimation.tsx : the PromptForm submit gate
  (isSubmitDisabled, tooltipText) and its handleSubmit;
- src/App.tsx : handleGenerate, handleNewVideo, handleExtend, canExtend
  (the session state machine).
-/

namespace CharChiru

/-- AppState from src/types (IDLE, LOADING, SUCCESS, ERROR), as used in App.tsx. -/
inductive AppState where
  | idle
  | loading
  | success
  | error
deriving DecidableEq, Repr

/-- GenerationMode enum from src/types, five generation modes. -/
inductive GenerationMode where
  | textToVideo
  | imageToVideo
  | framesToVideo
  | referencesToVideo
  | extendVideo
deriving DecidableEq, Repr

/-- Resolution enum: P720 (the "high" 720p tier) and P1080 (the 1080p tier). -/
inductive Resolution where
  | p720
  | p1080
deriving DecidableEq, Repr

/-- AspectRatio enum: LANDSCAPE and PORTRAIT. -/
inductive AspectRatio where
  | landscape
  | portrait
deriving DecidableEq, Repr

/-- VeoModel enum: VEO (the canonical full model) and VEO_FAST. -/
inductive VeoModel where
  | veo
  | veoFast
deriving DecidableEq, Repr

/-- ImageFile: an encoded image (file plus base64); fileType is file.type. -/
structure ImageFile where
  base64 : String
  fileType : String
deriving DecidableEq, Repr

/-- VideoFile: an encoded (or blob-backed) video file (file plus base64). -/
structure VideoFile where
  base64 : String
deriving DecidableEq, Repr

/-- The opaque Video handle returned by the service (uri is checked for
presence and non-emptiness by generateVideo before use). -/
structure VideoObj where
  uri : Option String
deriving DecidableEq, Repr

/-- GenerateVideoParams: the bag of inputs handed from PromptForm.handleSubmit
to App.handleGenerate to geminiService.generateVideo. -/
structure GenerateVideoParams where
  prompt : String
  model : VeoModel
  aspectRatio : AspectRatio
  resolution : Resolution
  mode : GenerationMode
  inputImage : Option ImageFile
  startFrame : Option ImageFile
  endFrame : Option ImageFile
  referenceImages : List ImageFile
  styleImage : Option ImageFile
  inputVideo : Option VideoFile
  inputVideoObject : Option VideoObj
  isLooping : Bool
  musicPrompt : String
deriving DecidableEq, Repr

/-- JavaScript String.prototype.trim: strip leading and trailing whitespace.
(Embedding of the .trim() calls in geminiService.ts and StartupAnimation.tsx;
written over the character list so that it evaluates in the kernel.) -/
def jsTrim (s : String) : String :=
  ⟨((s.data.dropWhile Char.isWhitespace).reverse.dropWhile Char.isWhitespace).reverse⟩

/-- The image payload shape sent to the service:
converted from an ImageFile as imageBytes := base64, mimeType := file.type. -/
structure PayloadImage where
  imageBytes : String
  mimeType : String
deriving DecidableEq, Repr

/-- VideoGenerationReferenceType: ASSET or STYLE. -/
inductive ReferenceType where
  | asset
  | style
deriving DecidableEq, Repr

/-- VideoGenerationReferenceImage: an image plus its reference-type tag. -/
structure ReferenceImagePayload where
  image : PayloadImage
  referenceType : ReferenceType
deriving DecidableEq, Repr

/-- The config object built at the top of generateVideo
(geminiService.ts lines 35-43), later possibly extended with lastFrame
(line 90) and referenceImages (line 132). A field is none when the
corresponding key is absent from the JavaScript object. -/
structure GenConfig where
  numberOfVideos : Nat
  resolution : Resolution
  aspectRatio : Option AspectRatio
  lastFrame : Option PayloadImage
  referenceImages : Option (List ReferenceImagePayload)
deriving DecidableEq, Repr

/-- The generateVideoPayload object (geminiService.ts lines 54-141).
prompt is none when the key is omitted (line 59: only set when finalPrompt
is non-empty). -/
structure GenPayload where
  model : VeoModel
  config : GenConfig
  prompt : Option String
  image : Option PayloadImage
  video : Option VideoObj
deriving DecidableEq, Repr

/-- Conversion used at every media-field site:
imageBytes := img.base64, mimeType := img.file.type. -/
def toPayloadImage (f : ImageFile) : PayloadImage :=
  ⟨f.base64, f.fileType⟩

/-- geminiService.ts lines 45-51: promptParts collects the trimmed prompt
(when truthy) then the trimmed music prompt prefixed with Audio: (when
truthy). -/
def promptParts (p m : String) : List String :=
  (if jsTrim p = "" then [] else [jsTrim p]) ++
    (if jsTrim m = "" then [] else ["Audio: " ++ jsTrim m])

/-- JavaScript Array.prototype.join with separator dot-space
(geminiService.ts line 52). -/
def joinDot : List String → String
  | [] => ""
  | [x] => x
  | x :: y :: rest => x ++ ". " ++ joinDot (y :: rest)

/-- geminiService.ts line 52: the final textual prompt. -/
def finalPromptText (p m : String) : String :=
  joinDot (promptParts p m)

/-- geminiService.ts lines 35-141: the pure payload-building prefix of
generateVideo, up to (but not including) the ai.models.generateVideos
network call.  .error carries the message of the Error the source throws. -/
def buildPayload (params : GenerateVideoParams) : Except String GenPayload :=
  let config : GenConfig :=
    { numberOfVideos := 1
      resolution := params.resolution
      aspectRatio :=
        if params.mode = GenerationMode.extendVideo then none
        else some params.aspectRatio
      lastFrame := none
      referenceImages := none }
  let finalPrompt := finalPromptText params.prompt params.musicPrompt
  let payload : GenPayload :=
    { model := params.model
      config := config
      prompt := if finalPrompt = "" then none else some finalPrompt
      image := none
      video := none }
  match params.mode with
  | GenerationMode.imageToVideo =>
    match params.inputImage with
    | some img => Except.ok { payload with image := some (toPayloadImage img) }
    | none => Except.error "An input image is required for Image to Video mode."
  | GenerationMode.framesToVideo =>
    let withStart : GenPayload :=
      { payload with image := params.startFrame.map toPayloadImage }
    let finalEndFrame :=
      if params.isLooping then params.startFrame else params.endFrame
    match finalEndFrame with
    | some ef =>
      Except.ok
        { withStart with
          config := { withStart.config with lastFrame := some (toPayloadImage ef) } }
    | none => Except.ok withStart
  | GenerationMode.referencesToVideo =>
    let refs : List ReferenceImagePayload :=
      params.referenceImages.map
          (fun img => ReferenceImagePayload.mk (toPayloadImage img) ReferenceType.asset)
        ++ (match params.styleImage with
            | some s => [ReferenceImagePayload.mk (toPayloadImage s) ReferenceType.style]
            | none => [])
    if refs = [] then Except.ok payload
    else
      Except.ok
        { payload with
          config := { payload.config with referenceImages := some refs } }
  | GenerationMode.extendVideo =>
    match params.inputVideoObject with
    | some v => Except.ok { payload with video := some v }
    | none => Except.error "An input video object is required to extend a video."
  | GenerationMode.textToVideo => Except.ok payload

/-- One generatedVideos entry of the operation response. -/
structure GeneratedVideoEntry where
  video : Option VideoObj
deriving DecidableEq, Repr

/-- operation.response: generatedVideos is none when the key is absent. -/
structure OperationResponse where
  generatedVideos : Option (List GeneratedVideoEntry)
deriving DecidableEq, Repr

/-- The long-running remote operation: done flag plus optional response. -/
structure RemoteOperation where
  done : Bool
  response : Option OperationResponse
deriving DecidableEq, Repr

/-- geminiService.ts line 148: the fixed wait of 10000 ms inside the poll
loop. -/
def pollIntervalMs : Nat := 10000

/-- geminiService.ts lines 147-151: the poll loop.  Given the operation
returned by submission and the (finite) list of statuses the service will
return to successive getVideosOperation queries, returns the number of
fixed-interval waits performed together with the terminal operation, or
none when the queue is exhausted before done turns true (the source loop
would still be running). Each iteration waits once, then re-queries. -/
def pollTrace : RemoteOperation → List RemoteOperation → Option (Nat × RemoteOperation)
  | op, queue =>
    if op.done then some (0, op)
    else
      match queue with
      | [] => none
      | next :: rest =>
        match pollTrace next rest with
        | some (n, t) => some (n + 1, t)
        | none => none

/-- geminiService.ts lines 153-166 and 200-203: inspection of the terminal
operation. Follows the source checks in order: no response, then missing or
empty generatedVideos, then a first entry whose video or uri is falsy
(absent or the empty string). -/
def extractResult (op : RemoteOperation) : Except String VideoObj :=
  match op.response with
  | none => Except.error "No videos generated."
  | some r =>
    match r.generatedVideos with
    | none => Except.error "No videos were generated."
    | some [] => Except.error "No videos were generated."
    | some (fv :: _) =>
      match fv.video with
      | none => Except.error "Generated video is missing a URI."
      | some vo =>
        match vo.uri with
        | none => Except.error "Generated video is missing a URI."
        | some u =>
          if u = "" then Except.error "Generated video is missing a URI."
          else Except.ok vo

/-- The download response observed by generateVideo: ok flag, status,
statusText, and the result of await res.text() (error when the body read
itself fails). -/
structure HttpResponse where
  ok : Bool
  status : Nat
  statusText : String
  bodyText : Except String String
deriving Repr

/-- geminiService.ts lines 191-193: the thrown message for a non-success
download response. -/
def fetchFailureMessage (status : Nat) (statusText body : String) : String :=
  "Failed to fetch video: " ++ toString status ++ " " ++ statusText ++
    ". Server said: \"" ++ body ++ "\""

/-- geminiService.ts lines 177-194: the response check of the asset
download. On a non-success response the body is read best-effort: a failed
read degrades to the placeholder string and no separate error is raised;
the single thrown error carries the status and the (possibly placeholder)
body. -/
def fetchVideoCheck (res : HttpResponse) : Except String Unit :=
  if res.ok then Except.ok ()
  else
    let errorBody :=
      match res.bodyText with
      | Except.ok b => b
      | Except.error _ => "Could not read error response body."
    Except.error (fetchFailureMessage res.status res.statusText errorBody)

/-- StartupAnimation.tsx (PromptForm) lines 522-563: the per-mode submit
gate. The submit control is disabled exactly when this returns true, so a
disabled form never invokes onGenerate (handleGenerate). -/
def isSubmitDisabled (f : GenerateVideoParams) : Bool :=
  match f.mode with
  | GenerationMode.textToVideo =>
    jsTrim f.prompt == "" && jsTrim f.musicPrompt == ""
  | GenerationMode.imageToVideo => f.inputImage.isNone
  | GenerationMode.framesToVideo => f.startFrame.isNone
  | GenerationMode.referencesToVideo =>
    f.referenceImages.isEmpty ||
      (jsTrim f.prompt == "" && jsTrim f.musicPrompt == "")
  | GenerationMode.extendVideo => f.inputVideoObject.isNone

/-- StartupAnimation.tsx (PromptForm) lines 522-563: the inline validation
message shown next to the disabled submit control. -/
def tooltipText (f : GenerateVideoParams) : String :=
  match f.mode with
  | GenerationMode.textToVideo =>
    if jsTrim f.prompt == "" && jsTrim f.musicPrompt == "" then
      "Please enter a prompt."
    else ""
  | GenerationMode.imageToVideo =>
    if f.inputImage.isNone then "An input image is required." else ""
  | GenerationMode.framesToVideo =>
    if f.startFrame.isNone then "A start frame is required." else ""
  | GenerationMode.referencesToVideo =>
    let hasNoRefs := f.referenceImages.isEmpty
    let hasNoPrompt := jsTrim f.prompt == "" && jsTrim f.musicPrompt == ""
    if hasNoRefs && hasNoPrompt then
      "Please add reference image(s) and enter a prompt."
    else if hasNoRefs then "At least one reference image is required."
    else if hasNoPrompt then "Please enter a prompt."
    else ""
  | GenerationMode.extendVideo =>
    if f.inputVideoObject.isNone then
      "An input video from a previous generation is required to extend."
    else ""

/-- The remote environment one submit runs against: the operation returned
by submission, the statuses returned by successive status queries, and the
response of the asset download. -/
structure RemoteEnv where
  initialOp : RemoteOperation
  statusQueue : List RemoteOperation
  downloadResponse : HttpResponse

/-- geminiService.ts generateVideo, end to end: build the payload, poll to
completion, extract the terminal video object, check the download. Returns
none when the poll loop never observes done (the source would still be
looping); otherwise the thrown message or the resulting video object. -/
def generateVideoRun (params : GenerateVideoParams) (env : RemoteEnv) :
    Option (Except String VideoObj) :=
  match buildPayload params with
  | Except.error e => some (Except.error e)
  | Except.ok _ =>
    match pollTrace env.initialOp env.statusQueue with
    | none => none
    | some (_, terminalOp) =>
      match extractResult terminalOp with
      | Except.error e => some (Except.error e)
      | Except.ok vo =>
        match fetchVideoCheck env.downloadResponse with
        | Except.error e => some (Except.error e)
        | Except.ok _ => some (Except.ok vo)

/-- App.tsx lines 72-94 (handleGenerate): the sequence of phases the
session enters during one handleGenerate call: LOADING first
(unconditionally), then SUCCESS or ERROR when generateVideo resolves
(nothing further when the poll loop never finishes). -/
def handleGenerateTrace (params : GenerateVideoParams) (env : RemoteEnv) :
    List AppState :=
  AppState.loading ::
    (match generateVideoRun params env with
     | none => []
     | some (Except.ok _) => [AppState.success]
     | some (Except.error _) => [AppState.error])

/-- A submit attempt at the form: when the submit control is disabled
(PromptForm gates on isSubmitDisabled) onGenerate is never invoked and no
phase is entered; otherwise handleGenerate runs. -/
def attemptSubmitTrace (f : GenerateVideoParams) (env : RemoteEnv) :
    List AppState :=
  if isSubmitDisabled f then [] else handleGenerateTrace f env

/-- The observable effect of the catch block of handleGenerate
(App.tsx lines 86-91). -/
structure FailureOutcome where
  errorMessage : String
  phase : AppState
  credentialPromptTriggered : Bool
deriving DecidableEq, Repr

/-- App.tsx lines 86-91: the catch block of handleGenerate. The source
sets one fixed generic message and the ERROR phase for every failure (the
comment there says: show a generic, secure error message for all
failures); it performs no inspection of the failure message and invokes no
credential-selection action, so the outcome is independent of the message
and credentialPromptTriggered is always false. -/
def handleGenerateCatch (_msg : String) : FailureOutcome :=
  { errorMessage := "Video generation failed. Please try again."
    phase := AppState.error
    credentialPromptTriggered := false }

/-- The session state of App.tsx plus accounting of locally materialized
blob object URLs: liveObjectUrls holds the ids of URLs minted by
URL.createObjectURL (geminiService.ts line 197) and not yet revoked;
nextObjectUrl is the next fresh id. The source contains no
URL.revokeObjectURL call, so no step ever removes an id. -/
structure SessionWorld where
  appState : AppState
  videoUrl : Option Nat
  errorMessage : Option String
  lastConfig : Option GenerateVideoParams
  lastVideoObject : Option VideoObj
  lastVideoBlob : Option Nat
  liveObjectUrls : List Nat
  nextObjectUrl : Nat
deriving DecidableEq, Repr

/-- The initial session (App.tsx lines 51-58). -/
def initialWorld : SessionWorld :=
  { appState := AppState.idle
    videoUrl := none
    errorMessage := none
    lastConfig := none
    lastVideoObject := none
    lastVideoBlob := none
    liveObjectUrls := []
    nextObjectUrl := 0 }

/-- App.tsx lines 72-94 (handleGenerate) as a state transition: set
LOADING, clear the error, record the config; on success of generateVideo
mint a fresh object URL (URL.createObjectURL) and store url, blob and
video object with phase SUCCESS; on failure store the generic message with
phase ERROR. No branch revokes any previously held object URL. -/
def handleGenerateStep (w : SessionWorld) (params : GenerateVideoParams)
    (env : RemoteEnv) : SessionWorld :=
  let w0 : SessionWorld :=
    { w with
      appState := AppState.loading
      errorMessage := none
      lastConfig := some params }
  match generateVideoRun params env with
  | some (Except.ok vo) =>
    { w0 with
      appState := AppState.success
      videoUrl := some w0.nextObjectUrl
      lastVideoBlob := some w0.nextObjectUrl
      lastVideoObject := some vo
      liveObjectUrls := w0.liveObjectUrls ++ [w0.nextObjectUrl]
      nextObjectUrl := w0.nextObjectUrl + 1 }
  | some (Except.error _) =>
    { w0 with
      appState := AppState.error
      errorMessage := some "Video generation failed. Please try again." }
  | none => w0

/-- App.tsx lines 102-110 (handleNewVideo): reset all retained state to
IDLE. The source only nulls its references; it does not call
URL.revokeObjectURL, so liveObjectUrls is untouched. -/
def newVideoStep (w : SessionWorld) : SessionWorld :=
  { w with
    appState := AppState.idle
    videoUrl := none
    errorMessage := none
    lastConfig := none
    lastVideoObject := none
    lastVideoBlob := none }

/-- App.tsx line 241: canExtend is passed to VideoResult as
lastConfig.resolution === Resolution.P720. -/
def canExtend (lastConfig : Option GenerateVideoParams) : Bool :=
  match lastConfig with
  | some c => c.resolution == Resolution.p720
  | none => false

/-- App.tsx lines 230-245: the Extend button is rendered only in the
SUCCESS branch, only when videoUrl is set, and only when canExtend holds
(VideoResult.tsx lines 39-41). -/
def extendActionAvailable (phase : AppState) (videoUrl : Option Nat)
    (lastConfig : Option GenerateVideoParams) : Bool :=
  phase == AppState.success && videoUrl.isSome && canExtend lastConfig

/-- App.tsx lines 123-160 (handleExtend): the prefilled EXTEND_VIDEO
request built from the last config and the last generated video object:
mode EXTEND_VIDEO, blank prompt, the prior video object as the input
handle, resolution forced to P720, model forced to VEO, every image media
field cleared, looping off and music prompt cleared; the preview
inputVideo is a fresh blob-backed file with empty base64. -/
def extendPrefill (lastConfig : GenerateVideoParams)
    (lastVideoObject : VideoObj) : GenerateVideoParams :=
  { lastConfig with
    mode := GenerationMode.extendVideo
    prompt := ""
    inputVideo := some ⟨""⟩
    inputVideoObject := some lastVideoObject
    resolution := Resolution.p720
    model := VeoModel.veo
    inputImage := none
    startFrame := none
    endFrame := none
    referenceImages := []
    styleImage := none
    isLooping := false
    musicPrompt := "" }

/-- The mode-required-input-absent conditions exactly as claim C1 lists
them (matching the per-mode required column of the spec table in section
4.2). -/
def missingRequiredInput (f : GenerateVideoParams) : Prop :=
  (f.mode = GenerationMode.imageToVideo ∧ f.inputImage = none) ∨
  (f.mode = GenerationMode.framesToVideo ∧ f.startFrame = none) ∨
  (f.mode = GenerationMode.referencesToVideo ∧
    (f.referenceImages = [] ∨
      (jsTrim f.prompt = "" ∧ jsTrim f.musicPrompt = ""))) ∨
  (f.mode = GenerationMode.textToVideo ∧
    jsTrim f.prompt = "" ∧ jsTrim f.musicPrompt = "") ∨
  (f.mode = GenerationMode.extendVideo ∧ f.inputVideoObject = none)

/-- The text-assembly rule as the spec states it (spec section 4.3 and
claim C5): the trimmed prompt and, for a non-whitespace music prompt, the
Audio: line, with whitespace-only components dropped and the surviving
components joined by dot-space. Stated separately from finalPromptText so
the two can be compared. -/
def specFinalText (p m : String) : String :=
  if jsTrim p = "" then
    (if jsTrim m = "" then "" else "Audio: " ++ jsTrim m)
  else
    (if jsTrim m = "" then jsTrim p
     else jsTrim p ++ ". " ++ ("Audio: " ++ jsTrim m))

/-- Forget the textual prompt field of a payload (used to compare the
non-prompt parts of two payloads). -/
def eraseTextPrompt (pl : GenPayload) : GenPayload :=
  { pl with prompt := none }

/-- A baseline TEXT_TO_VIDEO parameter bag with every optional input
absent (the defaults PromptForm starts from). -/
def baseParams : GenerateVideoParams :=
  { prompt := ""
    model := VeoModel.veoFast
    aspectRatio := AspectRatio.landscape
    resolution := Resolution.p720
    mode := GenerationMode.textToVideo
    inputImage := none
    startFrame := none
    endFrame := none
    referenceImages := []
    styleImage := none
    inputVideo := none
    inputVideoObject := none
    isLooping := false
    musicPrompt := "" }

/-- A concrete encoded image. -/
def sampleImage : ImageFile := ⟨"aGVsbG8=", "image/png"⟩

/-- A second concrete encoded image. -/
def otherImage : ImageFile := ⟨"d29ybGQ=", "image/jpeg"⟩

/-- A concrete generated-video handle with a non-empty uri. -/
def sampleVideoObj : VideoObj := ⟨some "https://example.com/v.mp4"⟩

/-- A remote environment whose operation is done at submission with one
usable generated video and whose download succeeds. -/
def successEnv : RemoteEnv :=
  { initialOp :=
      { done := true
        response := some ⟨some [⟨some sampleVideoObj⟩]⟩ }
    statusQueue := []
    downloadResponse :=
      { ok := true, status := 200, statusText := "OK", bodyText := Except.ok "" } }

/-- IMAGE_TO_VIDEO with the required input image absent. -/
def fNoImage : GenerateVideoParams :=
  { baseParams with mode := GenerationMode.imageToVideo }

/-- TEXT_TO_VIDEO with only the music prompt non-empty. -/
def fMinMusic : GenerateVideoParams :=
  { baseParams with musicPrompt := "jazz" }

/-- IMAGE_TO_VIDEO with its minimal valid input. -/
def fWithImage : GenerateVideoParams :=
  { baseParams with
    mode := GenerationMode.imageToVideo
    inputImage := some sampleImage }

/-- FRAMES_TO_VIDEO with its minimal valid input. -/
def fFrames : GenerateVideoParams :=
  { baseParams with
    mode := GenerationMode.framesToVideo
    startFrame := some sampleImage }

/-- FRAMES_TO_VIDEO with loop flag set, a start frame and an end frame. -/
def fFramesLoop : GenerateVideoParams :=
  { baseParams with
    mode := GenerationMode.framesToVideo
    startFrame := some sampleImage
    endFrame := some otherImage
    isLooping := true }

/-- FRAMES_TO_VIDEO with loop flag off and an end frame supplied. -/
def fFramesNoLoop : GenerateVideoParams :=
  { baseParams with
    mode := GenerationMode.framesToVideo
    startFrame := some sampleImage
    endFrame := some otherImage
    isLooping := false }

/-- REFERENCES_TO_VIDEO with its minimal valid input. -/
def fRefs : GenerateVideoParams :=
  { baseParams with
    mode := GenerationMode.referencesToVideo
    referenceImages := [sampleImage]
    musicPrompt := "jazz" }

/-- EXTEND_VIDEO with the required prior video handle absent. -/
def fNoVideoHandle : GenerateVideoParams :=
  { baseParams with mode := GenerationMode.extendVideo }

/-- EXTEND_VIDEO with its minimal valid input. -/
def fWithVideoHandle : GenerateVideoParams :=
  { baseParams with
    mode := GenerationMode.extendVideo
    inputVideoObject := some sampleVideoObj }

/-- A TEXT_TO_VIDEO parameter bag whose prompt is whitespace-only and whose
music prompt is empty. -/
def fBlankPrompts : GenerateVideoParams :=
  { baseParams with prompt := "   " }

/-- baseParams at the non-extendable 1080p tier. -/
def fHiRes : GenerateVideoParams :=
  { baseParams with resolution := Resolution.p1080 }

/-- The lastFrame field of a built payload (none on a build error). -/
def lastFrameOf (e : Except String GenPayload) : Option PayloadImage :=
  match e with
  | Except.ok pl => pl.config.lastFrame
  | Except.error _ => none

/-- The prompt field of a built payload, when the build succeeds. -/
def promptFieldOf (e : Except String GenPayload) : Option (Option String) :=
  match e with
  | Except.ok pl => some pl.prompt
  | Except.error _ => none

/-- The payload built for fBlankPrompts: no prompt key, defaults elsewhere. -/
def fBlankPayload : GenPayload :=
  { model := VeoModel.veoFast
    config :=
      { numberOfVideos := 1
        resolution := Resolution.p720
        aspectRatio := some AspectRatio.landscape
        lastFrame := none
        referenceImages := none }
    prompt := none
    image := none
    video := none }

/-- Helper: every mode-required-input-absent condition disables the submit
control and produces a non-empty inline validation message. -/
theorem missingInput_disables (f : GenerateVideoParams)
    (h : missingRequiredInput f) :
    isSubmitDisabled f = true ∧ tooltipText f ≠ "" := by
  rcases h with ⟨hm, hi⟩ | ⟨hm, hs⟩ | ⟨hm, hr⟩ | ⟨hm, hp, hmp⟩ | ⟨hm, hv⟩
  · exact ⟨by simp [isSubmitDisabled, hm, hi], by simp [tooltipText, hm, hi]⟩
  · exact ⟨by simp [isSubmitDisabled, hm, hs], by simp [tooltipText, hm, hs]⟩
  · constructor
    · rcases hr with hr | ⟨hp, hmp⟩
      · simp [isSubmitDisabled, hm, hr]
      · simp [isSubmitDisabled, hm, hp, hmp]
    · rcases hr with hr | ⟨hp, hmp⟩
      · by_cases h1 : jsTrim f.prompt = "" <;>
          by_cases h2 : jsTrim f.musicPrompt = "" <;>
          simp [tooltipText, hm, hr, h1, h2]
      · by_cases hnr : f.referenceImages = [] <;>
          simp [tooltipText, hm, hp, hmp, hnr]
  · exact ⟨by simp [isSubmitDisabled, hm, hp, hmp],
      by simp [tooltipText, hm, hp, hmp]⟩
  · exact ⟨by simp [isSubmitDisabled, hm, hv], by simp [tooltipText, hm, hv]⟩

/-- Claim C1: for every generation mode, a submit whose mode-required input
is absent is rejected by the local validation layer before any network call
(the submit gate disables submission with a non-empty validation message;
for IMAGE_TO_VIDEO and EXTEND_VIDEO the payload builder additionally throws
before the submission call), while the minimal valid input set of each mode
is accepted: the gate is open and the payload builder succeeds. -/
theorem build_validation (f : GenerateVideoParams) :
    (missingRequiredInput f → isSubmitDisabled f = true ∧ tooltipText f ≠ "") ∧
    (f.mode = GenerationMode.imageToVideo → f.inputImage = none →
      ∃ e, buildPayload f = Except.error e) ∧
    (f.mode = GenerationMode.extendVideo → f.inputVideoObject = none →
      ∃ e, buildPayload f = Except.error e) ∧
    (f.mode = GenerationMode.textToVideo → jsTrim f.musicPrompt ≠ "" →
      isSubmitDisabled f = false ∧ (buildPayload f).isOk = true) ∧
    (f.mode = GenerationMode.imageToVideo → f.inputImage.isSome = true →
      isSubmitDisabled f = false ∧ (buildPayload f).isOk = true) ∧
    (f.mode = GenerationMode.framesToVideo → f.startFrame.isSome = true →
      isSubmitDisabled f = false ∧ (buildPayload f).isOk = true) ∧
    (f.mode = GenerationMode.referencesToVideo → f.referenceImages ≠ [] →
      (jsTrim f.prompt ≠ "" ∨ jsTrim f.musicPrompt ≠ "") →
      isSubmitDisabled f = false ∧ (buildPayload f).isOk = true) ∧
    (f.mode = GenerationMode.extendVideo → f.inputVideoObject.isSome = true →
      isSubmitDisabled f = false ∧ (buildPayload f).isOk = true) := by
  refine ⟨missingInput_disables f, ?_, ?_, ?_, ?_, ?_, ?_, ?_⟩
  · intro hm hi
    simp [buildPayload, hm, hi]
  · intro hm hv
    simp [buildPayload, hm, hv]
  · intro hm hmp
    constructor
    · simp [isSubmitDisabled, hm, hmp]
    · simp only [buildPayload, hm]
      simp [Except.isOk, Except.toBool]
  · intro hm hi
    obtain ⟨img, himg⟩ := Option.isSome_iff_exists.mp hi
    constructor
    · simp [isSubmitDisabled, hm, himg]
    · simp [buildPayload, hm, himg, Except.isOk, Except.toBool]
  · intro hm hs
    obtain ⟨sf, hsf⟩ := Option.isSome_iff_exists.mp hs
    constructor
    · simp [isSubmitDisabled, hm, hsf]
    · simp only [buildPayload, hm]
      split <;> simp [Except.isOk, Except.toBool]
  · intro hm hr hp
    constructor
    · rcases hp with hp | hp <;> simp [isSubmitDisabled, hm, hr, hp]
    · simp only [buildPayload, hm]
      split <;> simp [Except.isOk, Except.toBool]
  · intro hm hv
    obtain ⟨v, hv'⟩ := Option.isSome_iff_exists.mp hv
    constructor
    · simp [isSubmitDisabled, hm, hv']
    · simp [buildPayload, hm, hv', Except.isOk, Except.toBool]

/-- Witness for C1 at concrete inputs: a missing input image is rejected
(gate closed, message shown, builder throws); the minimal valid input set
of each mode is accepted (gate open, builder succeeds), including
TEXT_TO_VIDEO with only the music prompt non-empty. -/
theorem build_validation_witness :
    (isSubmitDisabled fNoImage = true ∧ tooltipText fNoImage ≠ "") ∧
    (∃ e, buildPayload fNoImage = Except.error e) ∧
    (isSubmitDisabled fMinMusic = false ∧ (buildPayload fMinMusic).isOk = true) ∧
    (isSubmitDisabled fWithImage = false ∧ (buildPayload fWithImage).isOk = true) ∧
    (isSubmitDisabled fFrames = false ∧ (buildPayload fFrames).isOk = true) ∧
    (isSubmitDisabled fRefs = false ∧ (buildPayload fRefs).isOk = true) ∧
    (isSubmitDisabled fWithVideoHandle = false ∧
      (buildPayload fWithVideoHandle).isOk = true) := by
  refine ⟨(build_validation _).1 (Or.inl ⟨rfl, rfl⟩),
    (build_validation _).2.1 rfl rfl,
    (build_validation _).2.2.2.1 rfl (by decide),
    (build_validation _).2.2.2.2.1 rfl rfl,
    (build_validation _).2.2.2.2.2.1 rfl rfl,
    (build_validation _).2.2.2.2.2.2.1 rfl (by decide) (Or.inr (by decide)),
    (build_validation _).2.2.2.2.2.2.2 rfl rfl⟩

/-- Claim C2: a submit attempt whose input fails local validation (a
mode-required input is absent) never makes the session pass through
LOADING: the form gate blocks it before handleGenerate runs, no phase is
entered at all, and the validation message is reported inline. -/
theorem validation_never_enters_loading (f : GenerateVideoParams)
    (env : RemoteEnv) (h : missingRequiredInput f) :
    attemptSubmitTrace f env = [] ∧
    AppState.loading ∉ attemptSubmitTrace f env ∧
    tooltipText f ≠ "" := by
  obtain ⟨hd, ht⟩ := missingInput_disables f h
  refine ⟨?_, ?_, ht⟩ <;> simp [attemptSubmitTrace, hd]

/-- Witness for C2: an IMAGE_TO_VIDEO submit attempt without an input image
enters no phase (in particular not LOADING) and reports the inline
validation message. -/
theorem validation_never_enters_loading_witness :
    attemptSubmitTrace fNoImage successEnv = [] ∧
    AppState.loading ∉ attemptSubmitTrace fNoImage successEnv ∧
    tooltipText fNoImage ≠ "" :=
  validation_never_enters_loading fNoImage successEnv (Or.inl ⟨rfl, rfl⟩)

/-- Claim C5: the final textual prompt equals the trimmed prompt and, when
the music prompt trims to non-empty, the Audio: line, joined by dot-space
with whitespace-only components dropped; including the three concrete
examples from the spec. -/
theorem prompt_assembly_correct :
    (∀ p m, finalPromptText p m = specFinalText p m) ∧
    finalPromptText "A cat" "jazz" = "A cat. Audio: jazz" ∧
    finalPromptText "" "jazz" = "Audio: jazz" ∧
    finalPromptText "" "" = "" := by
  refine ⟨?_, by decide, by decide, by decide⟩
  intro p m
  unfold finalPromptText specFinalText promptParts
  by_cases hp : jsTrim p = "" <;> by_cases hm : jsTrim m = "" <;>
    simp [hp, hm, joinDot]

/-- Helper: the poll loop performs one wait per status query: with a
not-done initial operation, not-done statuses for the first queries and a
done status at the end of the queue, it returns after mids.length + 1
waits with the final operation. -/
theorem pollTrace_counts (fin : RemoteOperation) (hfin : fin.done = true) :
    ∀ (mids : List RemoteOperation) (init : RemoteOperation),
      init.done = false → (∀ o ∈ mids, o.done = false) →
      pollTrace init (mids ++ [fin]) = some (mids.length + 1, fin) := by
  intro mids
  induction mids with
  | nil =>
    intro init h1 _
    simp [pollTrace, h1, hfin]
  | cons a rest ih =>
    intro init h1 h2
    have ha : a.done = false := h2 a (List.mem_cons_self a rest)
    have hr : ∀ o ∈ rest, o.done = false := fun o ho => h2 o (List.mem_cons_of_mem a ho)
    have hi := ih a ha hr
    rw [List.cons_append]
    conv_lhs => rw [pollTrace]
    simp [h1, hi]

/-- Claim C6: with done=false at submission and on the first N-1 status
re-queries and done=true on the Nth query, the poll loop performs exactly
N fixed-interval waits (each of pollIntervalMs = 10000 ms, each followed by
one re-query) before inspecting the terminal result (and zero waits when
done holds at submission); and a terminal operation whose generated-video
list is empty or absent makes the poller fail with an error instead of
returning a descriptor. -/
theorem polling_protocol :
    (∀ (init fin : RemoteOperation) (mids : List RemoteOperation),
      init.done = false → (∀ o ∈ mids, o.done = false) → fin.done = true →
      pollTrace init (mids ++ [fin]) = some (mids.length + 1, fin)) ∧
    (∀ (init : RemoteOperation) (queue : List RemoteOperation),
      init.done = true → pollTrace init queue = some (0, init)) ∧
    (∀ op : RemoteOperation, op.done = true →
      op.response = none ∨ op.response = some ⟨none⟩ ∨ op.response = some ⟨some []⟩ →
      ∃ e, extractResult op = Except.error e) ∧
    pollIntervalMs = 10000 := by
  refine ⟨fun init fin mids h1 h2 h3 => pollTrace_counts fin h3 mids init h1 h2,
    fun init queue h => by cases queue <;> simp [pollTrace, h],
    fun op _ h => ?_, rfl⟩
  rcases h with h | h | h <;> simp [extractResult, h]

/-- Witness for C6: a run that is pending at submission and on the first
re-query and done on the second performs exactly two waits; a done
operation whose generated-video list is empty fails. -/
theorem polling_protocol_witness :
    pollTrace ⟨false, none⟩ [⟨false, none⟩, ⟨true, none⟩] = some (2, ⟨true, none⟩) ∧
    (∃ e, extractResult ⟨true, some ⟨some []⟩⟩ = Except.error e) := by
  constructor
  · have h := polling_protocol.1 ⟨false, none⟩ ⟨true, none⟩ [⟨false, none⟩] rfl
      (by intro o ho; rw [List.mem_singleton] at ho; rw [ho]) rfl
    simpa using h
  · exact polling_protocol.2.2.1 ⟨true, some ⟨some []⟩⟩ rfl (Or.inr (Or.inr rfl))

/-- Claim C7: in a SUCCESS session whose last request used the 720p tier
the extend action is available and handleExtend prefills an EXTEND_VIDEO
request with empty prompt, the prior generated video object as the input
handle, resolution forced to 720p, model forced to VEO and all image media
fields cleared; at the 1080p tier the extend action is unavailable. -/
theorem extend_flow (cfg : GenerateVideoParams) (vo : VideoObj) (u : Nat) :
    (cfg.resolution = Resolution.p720 →
      extendActionAvailable AppState.success (some u) (some cfg) = true ∧
      (extendPrefill cfg vo).mode = GenerationMode.extendVideo ∧
      (extendPrefill cfg vo).prompt = "" ∧
      (extendPrefill cfg vo).inputVideoObject = some vo ∧
      (extendPrefill cfg vo).resolution = Resolution.p720 ∧
      (extendPrefill cfg vo).model = VeoModel.veo ∧
      (extendPrefill cfg vo).inputImage = none ∧
      (extendPrefill cfg vo).startFrame = none ∧
      (extendPrefill cfg vo).endFrame = none ∧
      (extendPrefill cfg vo).referenceImages = [] ∧
      (extendPrefill cfg vo).styleImage = none ∧
      (extendPrefill cfg vo).musicPrompt = "") ∧
    (cfg.resolution = Resolution.p1080 →
      extendActionAvailable AppState.success (some u) (some cfg) = false) := by
  constructor
  · intro h
    refine ⟨?_, rfl, rfl, rfl, rfl, rfl, rfl, rfl, rfl, rfl, rfl, rfl⟩
    simp [extendActionAvailable, canExtend, h]
  · intro h
    simp [extendActionAvailable, canExtend, h]

/-- Witness for C7: at the 720p tier the extend action is available and the
prefill carries the prior video handle with forced resolution and model; at
the 1080p tier it is unavailable. -/
theorem extend_flow_witness :
    extendActionAvailable AppState.success (some 0) (some baseParams) = true ∧
    (extendPrefill baseParams sampleVideoObj).prompt = "" ∧
    (extendPrefill baseParams sampleVideoObj).inputVideoObject = some sampleVideoObj ∧
    (extendPrefill baseParams sampleVideoObj).resolution = Resolution.p720 ∧
    (extendPrefill baseParams sampleVideoObj).model = VeoModel.veo ∧
    extendActionAvailable AppState.success (some 0) (some fHiRes) = false := by
  have h1 := (extend_flow baseParams sampleVideoObj 0).1 rfl
  have h2 := (extend_flow fHiRes sampleVideoObj 0).2 rfl
  exact ⟨h1.1, h1.2.2.1, h1.2.2.2.1, h1.2.2.2.2.1, h1.2.2.2.2.2.1, h2⟩

/-- Claim C8: for a FRAMES_TO_VIDEO request with the loop flag set and a
start frame present, the built payload's lastFrame equals the start frame
regardless of any supplied end frame; with the loop flag off, lastFrame is
the supplied end frame, or absent when none is supplied. -/
theorem frames_loop_endframe (params : GenerateVideoParams)
    (h : params.mode = GenerationMode.framesToVideo) :
    (∀ sf, params.isLooping = true → params.startFrame = some sf →
      ∃ pl, buildPayload params = Except.ok pl ∧
        pl.config.lastFrame = some (toPayloadImage sf)) ∧
    (params.isLooping = false →
      ∃ pl, buildPayload params = Except.ok pl ∧
        pl.config.lastFrame = Option.map toPayloadImage params.endFrame) := by
  constructor
  · intro sf hl hs
    simp [buildPayload, h, hl, hs]
  · intro hl
    cases he : params.endFrame with
    | none => simp [buildPayload, h, hl, he]
    | some ef => simp [buildPayload, h, hl, he]

/-- Witness for C8: with the loop flag set and both frames supplied,
lastFrame is the start frame (the end frame is overridden); with the loop
flag off, lastFrame is the supplied end frame. -/
theorem frames_loop_endframe_witness :
    lastFrameOf (buildPayload fFramesLoop) = some (toPayloadImage sampleImage) ∧
    lastFrameOf (buildPayload fFramesNoLoop) = some (toPayloadImage otherImage) := by
  obtain ⟨pl, hpl, hlf⟩ := (frames_loop_endframe fFramesLoop rfl).1 sampleImage rfl rfl
  obtain ⟨pl2, hpl2, hlf2⟩ := (frames_loop_endframe fFramesNoLoop rfl).2 rfl
  constructor
  · rw [hpl]
    simpa [lastFrameOf] using hlf
  · rw [hpl2]
    simpa [lastFrameOf, fFramesNoLoop] using hlf2

/-- Claim C9: a non-success download response makes the fetch step fail
with a single error carrying the response status and the response body
text; when reading the body itself fails, no separate error is raised: the
diagnostic degrades to the fixed placeholder string and the same transport
error (still carrying the status) is reported. -/
theorem fetch_error_reporting (res : HttpResponse) (h : res.ok = false) :
    (∀ b, res.bodyText = Except.ok b →
      fetchVideoCheck res =
        Except.error (fetchFailureMessage res.status res.statusText b)) ∧
    (∀ e, res.bodyText = Except.error e →
      fetchVideoCheck res =
        Except.error (fetchFailureMessage res.status res.statusText
          "Could not read error response body.")) := by
  constructor <;> intro x hx <;> simp [fetchVideoCheck, h, hx]

/-- Witness for C9 at a concrete 404 response: with a readable body the
error carries status and body; with a failing body read the error carries
status and the placeholder. -/
theorem fetch_error_reporting_witness :
    fetchVideoCheck ⟨false, 404, "Not Found", Except.ok "quota exceeded"⟩ =
      Except.error (fetchFailureMessage 404 "Not Found" "quota exceeded") ∧
    fetchVideoCheck ⟨false, 404, "Not Found", Except.error "stream closed"⟩ =
      Except.error (fetchFailureMessage 404 "Not Found"
        "Could not read error response body.") := by
  constructor
  · exact (fetch_error_reporting
      ⟨false, 404, "Not Found", Except.ok "quota exceeded"⟩ rfl).1 "quota exceeded" rfl
  · exact (fetch_error_reporting
      ⟨false, 404, "Not Found", Except.error "stream closed"⟩ rfl).2 "stream closed" rfl

/-- Helper: the prompt field of every successfully built payload is the
final prompt text when non-empty, and absent otherwise. -/
theorem buildPayload_prompt (params : GenerateVideoParams) (pl : GenPayload)
    (hpl : buildPayload params = Except.ok pl) :
    pl.prompt =
      (if finalPromptText params.prompt params.musicPrompt = "" then none
       else some (finalPromptText params.prompt params.musicPrompt)) := by
  cases hmode : params.mode <;> simp only [buildPayload, hmode] at hpl
  case textToVideo =>
    obtain rfl := (Except.ok.injEq _ _).mp hpl
    rfl
  case imageToVideo =>
    cases hi : params.inputImage <;> rw [hi] at hpl
    · cases hpl
    · obtain rfl := (Except.ok.injEq _ _).mp hpl
      rfl
  case framesToVideo =>
    cases hef : (if params.isLooping = true then params.startFrame
        else params.endFrame) <;> simp only [hef] at hpl
    · obtain rfl := (Except.ok.injEq _ _).mp hpl
      rfl
    · obtain rfl := (Except.ok.injEq _ _).mp hpl
      rfl
  case referencesToVideo =>
    split at hpl
    · obtain rfl := (Except.ok.injEq _ _).mp hpl
      rfl
    · obtain rfl := (Except.ok.injEq _ _).mp hpl
      rfl
  case extendVideo =>
    cases hv : params.inputVideoObject <;> rw [hv] at hpl
    · cases hpl
    · obtain rfl := (Except.ok.injEq _ _).mp hpl
      rfl

/-- Claim C10: when the prompt and the music prompt are both empty or
whitespace-only, the built payload carries no prompt field at all, while
the model, config and mode-specific media fields are built exactly as they
would be with any other prompt strings. -/
theorem payload_omits_empty_prompt (params : GenerateVideoParams) (p m : String) :
    (jsTrim params.prompt = "" → jsTrim params.musicPrompt = "" →
      ∀ pl, buildPayload params = Except.ok pl → pl.prompt = none) ∧
    Except.map eraseTextPrompt
        (buildPayload { params with prompt := p, musicPrompt := m }) =
      Except.map eraseTextPrompt (buildPayload params) := by
  constructor
  · intro hp hm pl hpl
    have hfp : finalPromptText params.prompt params.musicPrompt = "" := by
      simp [finalPromptText, promptParts, hp, hm, joinDot]
    rw [buildPayload_prompt params pl hpl, hfp]
    simp
  · cases hmode : params.mode
    case textToVideo =>
      simp [buildPayload, hmode, eraseTextPrompt, Except.map]
    case imageToVideo =>
      cases hi : params.inputImage <;>
        simp [buildPayload, hmode, hi, eraseTextPrompt, Except.map]
    case framesToVideo =>
      cases hl : params.isLooping
      · cases he : params.endFrame <;>
          simp [buildPayload, hmode, hl, he, eraseTextPrompt, Except.map]
      · cases hs : params.startFrame <;>
          simp [buildPayload, hmode, hl, hs, eraseTextPrompt, Except.map]
    case referencesToVideo =>
      by_cases hc :
          (params.referenceImages.map
              (fun img => ReferenceImagePayload.mk (toPayloadImage img)
                ReferenceType.asset)
            ++ (match params.styleImage with
                | some s => [ReferenceImagePayload.mk (toPayloadImage s)
                    ReferenceType.style]
                | none => [])) = [] <;>
        simp [buildPayload, hmode, eraseTextPrompt, Except.map, hc]
    case extendVideo =>
      cases hv : params.inputVideoObject <;>
        simp [buildPayload, hmode, hv, eraseTextPrompt, Except.map]

/-- Witness for C10: with a whitespace-only prompt and empty music prompt
the built payload has no prompt field, and erasing the prompt field makes
it coincide with the payload built from non-empty prompts. -/
theorem payload_omits_empty_prompt_witness :
    promptFieldOf (buildPayload fBlankPrompts) = some none ∧
    Except.map eraseTextPrompt
        (buildPayload { fBlankPrompts with prompt := "A cat", musicPrompt := "jazz" }) =
      Except.map eraseTextPrompt (buildPayload fBlankPrompts) := by
  have h := payload_omits_empty_prompt fBlankPrompts "A cat" "jazz"
  constructor
  · have hok : buildPayload fBlankPrompts = Except.ok fBlankPayload := rfl
    have h1 := h.1 (by decide) (by decide) fBlankPayload hok
    simp [promptFieldOf, hok, h1]
  · exact h.2

/-- Claim C3 evaluation (the code leaks object URLs): starting from the
initial session, two consecutive successful submits leave BOTH minted
object URLs live (the first is never revoked: the source has no
URL.revokeObjectURL call), and the new-session transition leaves them both
live as well, contradicting the at-most-one-live-URL claim. -/
theorem object_url_not_released :
    (handleGenerateStep (handleGenerateStep initialWorld baseParams successEnv)
        baseParams successEnv).liveObjectUrls = [0, 1] ∧
    (newVideoStep (handleGenerateStep (handleGenerateStep initialWorld baseParams
        successEnv) baseParams successEnv)).liveObjectUrls = [0, 1] := by
  constructor <;> rfl

/-- Counterexample to claim C4: a failure whose message contains the
invalid-credential substring is handled exactly like a generic transport
failure: the outcome is identical, no credential-reselection prompt is
triggered, and the stored message is the fixed generic string rather than
any classification. -/
theorem no_credential_classification :
    handleGenerateCatch "Requested entity was not found." =
      handleGenerateCatch "Failed to fetch" ∧
    (handleGenerateCatch
      "Requested entity was not found.").credentialPromptTriggered = false ∧
    (handleGenerateCatch "Requested entity was not found.").errorMessage =
      "Video generation failed. Please try again." :=
  ⟨rfl, rfl, rfl⟩

/-- Claim C4 as amended: every submit failure, whether the message contains
an invalid-credential substring or not, is handled identically: the
session stores the fixed generic message and enters ERROR; no authorization
classification is stored and no credential-reselection prompt is
triggered. -/
theorem failure_handling_uniform (msg : String) :
    handleGenerateCatch msg =
      { errorMessage := "Video generation failed. Please try again."
        phase := AppState.error
        credentialPromptTriggered := false } :=
  rfl

end CharChiru
